import Mathlib

/-!
Verification of the BGData dynamic-library registration shim
(`src/init.c`).  The shim declares two extern numerical kernels,
builds a static null-terminated descriptor table (`callMethods`), and
in `R_init_BGData` registers that table with the host, disables
name-based symbol lookup and forces handle-based lookup.

The embedding below follows the C source.  The kernels themselves are
extern and absent from the repository; they are represented by an
enumeration of their identities (their addresses, for the purpose of
dispatch) together with their declared argument counts.
-/

/-- The two extern kernels whose addresses the table stores:
`extern SEXP summarize(SEXP); extern SEXP rayOLS(SEXP, SEXP);`.
A value of this type stands for the address of the kernel. -/
inductive Kernel where
  | summarize
  | rayOLS
deriving DecidableEq, Fintype

/-- Declared argument count of each extern kernel, read off the
`extern` declarations in `init.c` (`summarize` takes one `SEXP`,
`rayOLS` takes two). -/
def kernelArity : Kernel → Nat
  | Kernel.summarize => 1
  | Kernel.rayOLS => 2

/-- One descriptor of the host's `R_CallMethodDef` table: a public
name (null modelled as `none`), a function handle (`DL_FUNC`, null
modelled as `none`), and an argument count. -/
structure R_CallMethodDef where
  name : Option String
  fn : Option Kernel
  numArgs : Nat
deriving DecidableEq

/-- The static descriptor table of `init.c`:
`{"C_summarize", &summarize, 1}, {"C_rayOLS", &rayOLS, 2}, {NULL, NULL, 0}`. -/
def callMethods : List R_CallMethodDef :=
  [ { name := some "C_summarize", fn := some Kernel.summarize, numArgs := 1 },
    { name := some "C_rayOLS", fn := some Kernel.rayOLS, numArgs := 2 },
    { name := none, fn := none, numArgs := 0 } ]

/-- A sentinel descriptor: null name, null handle, arity zero. -/
def isSentinel (e : R_CallMethodDef) : Prop :=
  e.name = none ∧ e.fn = none ∧ e.numArgs = 0

instance (e : R_CallMethodDef) : Decidable (isSentinel e) := by
  unfold isSentinel; infer_instance

/-- The mutable per-library state the host keeps for this library: the
four registered routine tables (each null until registered) and the two
symbol-policy flags set by `R_useDynamicSymbols` / `R_forceSymbols`. -/
structure DllInfo where
  cRoutines : Option (List R_CallMethodDef)
  callRoutines : Option (List R_CallMethodDef)
  fortranRoutines : Option (List R_CallMethodDef)
  externalRoutines : Option (List R_CallMethodDef)
  useDynSymbols : Bool
  forceSymbols : Bool
deriving DecidableEq

/-- `R_registerRoutines(dll, croutines, callRoutines, fortranRoutines,
externalRoutines)`: stores the four tables in the library state. -/
def R_registerRoutines (dll : DllInfo)
    (cR callR fR extR : Option (List R_CallMethodDef)) : DllInfo :=
  { dll with cRoutines := cR, callRoutines := callR,
             fortranRoutines := fR, externalRoutines := extR }

/-- `R_useDynamicSymbols(dll, b)`: sets the dynamic-symbol flag. -/
def R_useDynamicSymbols (dll : DllInfo) (b : Bool) : DllInfo :=
  { dll with useDynSymbols := b }

/-- `R_forceSymbols(dll, b)`: sets the force-symbols flag. -/
def R_forceSymbols (dll : DllInfo) (b : Bool) : DllInfo :=
  { dll with forceSymbols := b }

/-- The registrar `R_init_BGData(DllInfo *dll)` of `init.c`, as a state
function: register the table under the `.Call` category only, then
disable name-based lookup, then force handle-based lookup. -/
def R_init_BGData (dll : DllInfo) : DllInfo :=
  R_forceSymbols
    (R_useDynamicSymbols
      (R_registerRoutines dll none (some callMethods) none none) false) true

/-- One call into the host's registration facility, for reasoning about
the order of the registrar's effects. -/
inductive HostCall where
  | registerRoutines (cR callR fR extR : Option (List R_CallMethodDef))
  | useDynamicSymbols (b : Bool)
  | forceSymbols (b : Bool)
deriving DecidableEq

/-- The state effect of one host call. -/
def applyHostCall (dll : DllInfo) : HostCall → DllInfo
  | HostCall.registerRoutines cR callR fR extR =>
      R_registerRoutines dll cR callR fR extR
  | HostCall.useDynamicSymbols b => R_useDynamicSymbols dll b
  | HostCall.forceSymbols b => R_forceSymbols dll b

/-- The sequence of host calls the body of `R_init_BGData` performs, in
source order. -/
def R_init_BGData_trace : List HostCall :=
  [ HostCall.registerRoutines none (some callMethods) none none,
    HostCall.useDynamicSymbols false,
    HostCall.forceSymbols true ]

/-- Whether a host call is a call to the registration facility. -/
def isRegisterCall : HostCall → Bool
  | HostCall.registerRoutines _ _ _ _ => true
  | _ => false

/-- Scan a registered `.Call` table for a public name, as the host's
lookup does: entries are examined in order and the scan stops at the
null-name sentinel; on a name match the stored handle is returned. -/
def lookupTable : List R_CallMethodDef → String → Option Kernel
  | [], _ => none
  | e :: rest, nm =>
      match e.name with
      | none => none
      | some n => if n = nm then e.fn else lookupTable rest nm

/-- Host-side lookup of a published callable by name in the library's
registered `.Call` table. -/
def lookupCall (dll : DllInfo) (nm : String) : Option Kernel :=
  match dll.callRoutines with
  | none => none
  | some tab => lookupTable tab nm

/-- Host-side dispatch of a registered call: resolve the name in the
registered table and, on success, hand the argument list to the
resolved kernel (the pair records which kernel receives which
arguments; the kernels' own behaviour is extern and out of scope). -/
def dispatch {α : Type} (dll : DllInfo) (nm : String) (args : List α) :
    Option (Kernel × List α) :=
  match lookupCall dll nm with
  | none => none
  | some k => some (k, args)

/-- One invocation of a published callable, as a state transformer
paired with its dispatch outcome: the shim's table is `static const`
and the kernels receive only their arguments, so the library state is
returned unchanged. -/
def invokeCall {α : Type} (dll : DllInfo) (nm : String) (args : List α) :
    DllInfo × Option (Kernel × List α) :=
  (dll, dispatch dll nm args)

/-- Run a sequence of invocations, threading the library state. -/
def runInvocations {α : Type} (dll : DllInfo) :
    List (String × List α) → DllInfo
  | [] => dll
  | (nm, args) :: rest => runInvocations (invokeCall dll nm args).1 rest

/-- The name of the exported entry point of `init.c`, and the package
it is bound to under the host's `R_init_<package>` loader convention. -/
def entryPointName : String := "R_init_BGData"

/-- The package name the entry point binds to. -/
def packageName : String := "BGData"

/-- The registrar run against a host oracle that may fail.  Modelled
from the spec: failure modes of the host's registration facility are
host-defined and absent from `src/`, so each host call is an oracle
that either yields an updated library state or a host-defined error of
type `ε`.  The shim's own code has no error branch, so the three calls
of `R_init_BGData` are sequenced directly; `Unit` is the `void`
return. -/
def R_init_BGData_runHost {ε : Type} (host : HostCall → DllInfo → Except ε DllInfo)
    (dll : DllInfo) : Except ε (Unit × DllInfo) := do
  let d1 ← host (HostCall.registerRoutines none (some callMethods) none none) dll
  let d2 ← host (HostCall.useDynamicSymbols false) d1
  let d3 ← host (HostCall.forceSymbols true) d2
  return ((), d3)

/-- C1: the shim publishes exactly two callables, `C_summarize` with
arity 1 and `C_rayOLS` with arity 2: every non-sentinel entry of the
descriptor table carries one of these two name/arity pairs, and both
pairs occur in the table. -/
theorem callMethods_publishes_exactly_two :
    (∀ e ∈ callMethods, ¬ isSentinel e →
       (e.name = some "C_summarize" ∧ e.numArgs = 1) ∨
       (e.name = some "C_rayOLS" ∧ e.numArgs = 2))
    ∧ (∃ e ∈ callMethods, e.name = some "C_summarize" ∧ e.numArgs = 1)
    ∧ (∃ e ∈ callMethods, e.name = some "C_rayOLS" ∧ e.numArgs = 2) := by
  decide

/-- C2: the registrar's single registration call populates only the
`.Call` ("callable from the host language") category with the
descriptor table, passing the other three categories as null: the
trace contains exactly one registration call, with those arguments,
and in the resulting state only `callRoutines` is set. -/
theorem register_call_category_only (dll : DllInfo) :
    R_init_BGData_trace.filter isRegisterCall =
      [HostCall.registerRoutines none (some callMethods) none none]
    ∧ (R_init_BGData dll).cRoutines = none
    ∧ (R_init_BGData dll).callRoutines = some callMethods
    ∧ (R_init_BGData dll).fortranRoutines = none
    ∧ (R_init_BGData dll).externalRoutines = none :=
  ⟨rfl, rfl, rfl, rfl, rfl⟩

/-- C3: on every invocation of the registrar the dynamic-symbol flag
is set to false (name-based lookup disabled) and the force-symbols
flag to true (handle-based lookup required) on the given handle. -/
theorem registrar_symbol_policy (dll : DllInfo) :
    (R_init_BGData dll).useDynSymbols = false
    ∧ (R_init_BGData dll).forceSymbols = true :=
  ⟨rfl, rfl⟩

/-- C4: the descriptor table's invariants hold: public names are
unique, every non-sentinel entry has a non-null handle, each entry's
arity equals the declared argument count of the kernel it references,
and exactly one sentinel (null name, null handle, arity zero) appears,
as the last entry. -/
theorem callMethods_invariants :
    (callMethods.filterMap R_CallMethodDef.name).Nodup
    ∧ (∀ e ∈ callMethods, ¬ isSentinel e → e.fn ≠ none)
    ∧ (∀ e ∈ callMethods, ∀ k : Kernel, e.fn = some k → e.numArgs = kernelArity k)
    ∧ callMethods.countP (fun e => decide (isSentinel e)) = 1
    ∧ callMethods.getLast? = some { name := none, fn := none, numArgs := 0 } := by
  decide

/-- C5: dispatch reaches the intended kernel: the handle registered
under `C_summarize` is the address of the `summarize` kernel and the
one under `C_rayOLS` is the address of the `rayOLS` kernel, so an
invocation of `C_summarize` with one argument hands that argument to
the summarization kernel and an invocation of `C_rayOLS` with two
arguments hands them to the OLS kernel. -/
theorem dispatch_reaches_kernels {α : Type} (dll : DllInfo) (a b : α) :
    lookupCall (R_init_BGData dll) "C_summarize" = some Kernel.summarize
    ∧ lookupCall (R_init_BGData dll) "C_rayOLS" = some Kernel.rayOLS
    ∧ dispatch (R_init_BGData dll) "C_summarize" [a] = some (Kernel.summarize, [a])
    ∧ dispatch (R_init_BGData dll) "C_rayOLS" [a, b] = some (Kernel.rayOLS, [a, b]) :=
  ⟨rfl, rfl, rfl, rfl⟩

/-- C6: after registration, looking up a name yields a handle exactly
when the name is one of the two published names; in particular
`C_internal_helper` yields no handle. -/
theorem lookup_iff_published (dll : DllInfo) (nm : String) :
    ((∃ k, lookupCall (R_init_BGData dll) nm = some k) ↔
      nm = "C_summarize" ∨ nm = "C_rayOLS")
    ∧ lookupCall (R_init_BGData dll) "C_internal_helper" = none := by
  refine ⟨?_, rfl⟩
  show (∃ k, lookupTable callMethods nm = some k) ↔ _
  by_cases h1 : nm = "C_summarize"
  · subst h1; simp [lookupTable, callMethods]
  · by_cases h2 : nm = "C_rayOLS"
    · subst h2; simp [lookupTable, callMethods]
    · simp [lookupTable, callMethods, h1, h2, Ne.symm h1, Ne.symm h2]

/-- C7: the registrar returns no value and surfaces no errors of its
own: against any host oracle, the run either succeeds with `()` (the
`void` return) or fails with an error produced by the host on one of
the registrar's own three calls — never with an error of the shim's
making. -/
theorem registrar_surfaces_no_own_errors {ε : Type}
    (host : HostCall → DllInfo → Except ε DllInfo) (dll : DllInfo) :
    (∃ d, R_init_BGData_runHost host dll = Except.ok ((), d))
    ∨ (∃ e, R_init_BGData_runHost host dll = Except.error e
        ∧ ∃ c d2, c ∈ R_init_BGData_trace ∧ host c d2 = Except.error e) := by
  cases h1 : host (HostCall.registerRoutines none (some callMethods) none none) dll with
  | error e =>
      refine Or.inr ⟨e, ?_, _, dll, ?_, h1⟩
      · simp [R_init_BGData_runHost, h1, Bind.bind, Except.bind]
      · simp [R_init_BGData_trace]
  | ok d1 =>
      cases h2 : host (HostCall.useDynamicSymbols false) d1 with
      | error e =>
          refine Or.inr ⟨e, ?_, _, d1, ?_, h2⟩
          · simp [R_init_BGData_runHost, h1, h2, Bind.bind, Except.bind,
                  Functor.map, Except.map]
          · simp [R_init_BGData_trace]
      | ok d2 =>
          cases h3 : host (HostCall.forceSymbols true) d2 with
          | error e =>
              refine Or.inr ⟨e, ?_, _, d2, ?_, h3⟩
              · simp [R_init_BGData_runHost, h1, h2, h3, Bind.bind, Except.bind,
                      Functor.map, Except.map]
              · simp [R_init_BGData_trace]
          | ok d3 =>
              exact Or.inl ⟨d3, by
                simp [R_init_BGData_runHost, h1, h2, h3, Bind.bind, Except.bind,
                      Functor.map, Except.map, Pure.pure, Except.pure]⟩

/-- C8: the descriptor table is immutable after construction: any
sequence of invocations of the published callables leaves the library
state — and with it the registered table — exactly as the registrar
left it, and that table is the statically constructed `callMethods`. -/
theorem table_immutable_under_invocations {α : Type} (dll : DllInfo)
    (seq : List (String × List α)) :
    runInvocations (R_init_BGData dll) seq = R_init_BGData dll
    ∧ (runInvocations (R_init_BGData dll) seq).callRoutines = some callMethods := by
  have key : ∀ (d : DllInfo) (s : List (String × List α)), runInvocations d s = d := by
    intro d s
    induction s generalizing d with
    | nil => rfl
    | cons p rest ih => cases p with | mk nm args => exact ih _
  exact ⟨key _ _, by rw [key]; rfl⟩

/-- C9: the exported entry point is named exactly `R_init_BGData`,
which under the host's `R_init_<package>` convention binds the shim to
the package `BGData`; it takes exactly one argument, the host's
`DllInfo` handle, on which it performs the trace of host calls. -/
theorem entry_point_name_binds_package :
    entryPointName = "R_init_" ++ packageName
    ∧ ∀ dll : DllInfo, R_init_BGData dll = R_init_BGData_trace.foldl applyHostCall dll :=
  ⟨rfl, fun _ => rfl⟩

/-- C10: the registrar's three host calls happen in a fixed order —
register the table, then disable name-based lookup, then force
handle-based lookup — so in the states reached once name-based lookup
has been disabled (after the second and third call) both published
callables are already registered and resolvable. -/
theorem registrar_call_order (dll : DllInfo) :
    R_init_BGData_trace =
      [ HostCall.registerRoutines none (some callMethods) none none,
        HostCall.useDynamicSymbols false,
        HostCall.forceSymbols true ]
    ∧ lookupCall ((R_init_BGData_trace.take 1).foldl applyHostCall dll) "C_summarize"
        = some Kernel.summarize
    ∧ lookupCall ((R_init_BGData_trace.take 1).foldl applyHostCall dll) "C_rayOLS"
        = some Kernel.rayOLS
    ∧ ((R_init_BGData_trace.take 2).foldl applyHostCall dll).useDynSymbols = false
    ∧ lookupCall ((R_init_BGData_trace.take 2).foldl applyHostCall dll) "C_summarize"
        = some Kernel.summarize
    ∧ lookupCall ((R_init_BGData_trace.take 2).foldl applyHostCall dll) "C_rayOLS"
        = some Kernel.rayOLS :=
  ⟨rfl, rfl, rfl, rfl, rfl, rfl⟩
